import Mathlib

/-!
Verification development for the decision & proactive-scheduling engine of the
`yingxiaotuandui_muti` repository.

Shallow embedding conventions:
* Python floats are modelled as rationals (`ℚ`); the numeric comparisons the
  engine performs are exact, so this is faithful.
* Python dictionaries coming from the JSON layer are modelled as association
  lists `List (String × PyValue)`; `dict.get(k, d)` becomes an association
  lookup with a default.
* Timestamps are modelled as seconds (`ℤ`) since an epoch that falls on a
  Monday 00:00 in the engine's fixed UTC+8 timezone; `datetime.replace`
  truncations and calendar field reads become integer arithmetic on that axis.
* `random.randint(a, b)` draws are passed in as explicit values together with
  the inclusive-bounds facts `a ≤ r ∧ r ≤ b` that `randint` guarantees.
* `list(set(xs))` (CPython, salted string hashing) yields the distinct
  elements of `xs` in an unspecified order; it is modelled by the relation
  `pySetList xs out` (`out` duplicate-free with the same element set).
-/

namespace Yingxiao

/-! ## Python value model for the JSON layer -/

/-- A value found in a parsed-JSON dictionary, as discriminated by the code:
`num q` is a Python `int`/`float` with value `q` (`isinstance(v,(int,float))`
holds and `float(v) = q`); `numLike q` is a non-`int`/`float` value for which
`float(v)` nevertheless succeeds with value `q` (e.g. a numeric string);
`other` is a value for which `float(v)` raises `TypeError`/`ValueError`. -/
inductive PyValue
  | num (q : ℚ)
  | numLike (q : ℚ)
  | other
deriving DecidableEq

/-- A parsed-JSON dictionary: association list from keys to values. -/
def PyDict := List (String × PyValue)

/-- `d.get(k)` — first binding of `k`, if any. -/
def pyGet (d : PyDict) (k : String) : Option PyValue :=
  (List.find? (fun p => p.1 = k) d).map (fun p => p.2)

/-! ## EmotionalState construction (C1)

Sources: `src/states.py` (dataclass `EmotionalState`, 7 float fields),
`src/json_parser_utils.py:389-415` (`safe_create_emotional_state`),
`src/response_validator.py:24-43` (`ResponseValidator.validate_emotional_state`).
-/

/-- `EmotionalState` dataclass: 7 float fields, default `0.0` each
(`src/states.py:24-32`). -/
structure EmotionalState where
  security_level : ℚ := 0
  familiarity_level : ℚ := 0
  comfort_level : ℚ := 0
  intimacy_level : ℚ := 0
  gain_level : ℚ := 0
  recognition_level : ℚ := 0
  trust_level : ℚ := 0
deriving DecidableEq

/-- Per-field conversion of `safe_create_emotional_state`
(`src/json_parser_utils.py:400-406`): `value = data.get(field, 0.0)`; if
`isinstance(value, (int, float))` the field is `float(value)`, otherwise `0.0`.
No range clamping is performed. -/
def safeFieldValue : Option PyValue → ℚ
  | some (.num q) => q
  | _ => 0

/-- `safe_create_emotional_state` on the `dict` branch
(`src/json_parser_utils.py:394-408`).  (The other branches return an existing
`EmotionalState` unchanged or the all-zero default `EmotionalState()`.) -/
def safe_create_emotional_state (d : PyDict) : EmotionalState where
  security_level := safeFieldValue (pyGet d "security_level")
  familiarity_level := safeFieldValue (pyGet d "familiarity_level")
  comfort_level := safeFieldValue (pyGet d "comfort_level")
  intimacy_level := safeFieldValue (pyGet d "intimacy_level")
  gain_level := safeFieldValue (pyGet d "gain_level")
  recognition_level := safeFieldValue (pyGet d "recognition_level")
  trust_level := safeFieldValue (pyGet d "trust_level")

/-- `max(0.0, min(1.0, v))` (`src/response_validator.py:37`). -/
def clamp01 (q : ℚ) : ℚ := max 0 (min 1 q)

/-- Per-field conversion of `validate_emotional_state`
(`src/response_validator.py:32-41`): `float(value)` then clamp to `[0,1]`;
on `TypeError`/`ValueError` the field defaults to `0.0`. -/
def validatedFieldValue : Option PyValue → ℚ
  | some (.num q) => clamp01 q
  | some (.numLike q) => clamp01 q
  | _ => 0

/-- `ResponseValidator.validate_emotional_state` on the `dict` branch
(`src/response_validator.py:24-43`).  (A non-`dict` argument yields the
all-zero default `EmotionalState()`.) -/
def validate_emotional_state (d : PyDict) : EmotionalState where
  security_level := validatedFieldValue (pyGet d "security_level")
  familiarity_level := validatedFieldValue (pyGet d "familiarity_level")
  comfort_level := validatedFieldValue (pyGet d "comfort_level")
  intimacy_level := validatedFieldValue (pyGet d "intimacy_level")
  gain_level := validatedFieldValue (pyGet d "gain_level")
  recognition_level := validatedFieldValue (pyGet d "recognition_level")
  trust_level := validatedFieldValue (pyGet d "trust_level")

/-- All 7 fields lie in `[0,1]`. -/
def emotionalStateInRange (e : EmotionalState) : Prop :=
  (0 ≤ e.security_level ∧ e.security_level ≤ 1) ∧
  (0 ≤ e.familiarity_level ∧ e.familiarity_level ≤ 1) ∧
  (0 ≤ e.comfort_level ∧ e.comfort_level ≤ 1) ∧
  (0 ≤ e.intimacy_level ∧ e.intimacy_level ≤ 1) ∧
  (0 ≤ e.gain_level ∧ e.gain_level ≤ 1) ∧
  (0 ≤ e.recognition_level ∧ e.recognition_level ≤ 1) ∧
  (0 ≤ e.trust_level ∧ e.trust_level ≤ 1)

instance (e : EmotionalState) : Decidable (emotionalStateInRange e) := by
  unfold emotionalStateInRange; infer_instance

/-! ## ResponseSelector (C2)

Source: `src/AgentTools.py:695-768` (`self_verification_node`).
-/

/-- One evaluated candidate reply (`src/AgentTools.py:562-567`). -/
structure EvaluatedResponse where
  action : String
  response : String
  score : ℚ
  reasoning : String
deriving DecidableEq

instance : Inhabited EvaluatedResponse := ⟨⟨"", "", 0, ""⟩⟩

/-- Insert `r` into a descending-by-score list, after every element whose score
is strictly greater (so equal scores keep their original relative order). -/
def insertByScoreDesc (r : EvaluatedResponse) : List EvaluatedResponse → List EvaluatedResponse
  | [] => [r]
  | x :: xs => if x.score > r.score then x :: insertByScoreDesc r xs else r :: x :: xs

/-- Python's `sorted(rs, key=lambda x: x.get('score', 0.0), reverse=True)`:
the stable descending sort by score.  Stable sorts with the same key order are
unique as functions, so this insertion-sort formulation equals CPython's
(stable-with-`reverse=True`) sort. -/
def sortedByScoreDesc : List EvaluatedResponse → List EvaluatedResponse
  | [] => []
  | r :: rs => insertByScoreDesc r (sortedByScoreDesc rs)

/-- The `high_quality_responses` computation of `self_verification_node`
(`src/AgentTools.py:707-717`): filter score > 0.3; if empty, filter
score > 0.2; if still empty (and the input list is non-empty), the full input
list sorted by score descending. -/
def highQualityTier (evaluated_responses : List EvaluatedResponse) : List EvaluatedResponse :=
  let t1 := evaluated_responses.filter (fun r => r.score > 3/10)
  if t1 ≠ [] then t1
  else
    let t2 := evaluated_responses.filter (fun r => r.score > 2/10)
    if t2 ≠ [] then t2
    else if evaluated_responses ≠ [] then sortedByScoreDesc evaluated_responses
    else []

/-- The selection block of `self_verification_node`
(`src/AgentTools.py:719-744`): empty tier returns the constant fallback;
`len == 1` selects `hq[0]`; otherwise `sorted(hq, key=score, reverse=True)[0]`. -/
def selectFromTier (high_quality : List EvaluatedResponse) : String :=
  if high_quality = [] then "嗯嗯，好的"
  else if high_quality.length = 1 then (high_quality.headD default).response
  else ((sortedByScoreDesc high_quality).headD default).response

/-- `self_verification_node` (`src/AgentTools.py:695-768`): the tier cascade
followed by the selection block. -/
def self_verification_node (evaluated_responses : List EvaluatedResponse) : String :=
  selectFromTier (highQualityTier evaluated_responses)

/-- Modelled from the spec: the element of maximal score among `r :: l`, ties
resolved in favour of the earliest occurrence. -/
def firstMaxByScore (r : EvaluatedResponse) : List EvaluatedResponse → EvaluatedResponse
  | [] => r
  | x :: xs =>
      let m := firstMaxByScore x xs
      if m.score > r.score then m else r

/-- Modelled from the spec (§4.5): the surviving tier — filter score > 0.3; if
empty filter score > 0.2; if still empty the full input list. -/
def specTier (rs : List EvaluatedResponse) : List EvaluatedResponse :=
  let t1 := rs.filter (fun r => r.score > 3/10)
  if t1 ≠ [] then t1
  else
    let t2 := rs.filter (fun r => r.score > 2/10)
    if t2 ≠ [] then t2 else rs

/-- Modelled from the spec (§4.5): an empty tier yields the constant fallback;
a tier of exactly one element is selected directly; otherwise the element of
maximal score wins, ties resolved by first occurrence in list order. -/
def specPick : List EvaluatedResponse → String
  | [] => "嗯嗯，好的"
  | [r] => r.response
  | r :: r2 :: rest => (firstMaxByScore r (r2 :: rest)).response

/-- Modelled from the spec (§4.5 ResponseSelector, word for word). -/
def responseSelectorSpec (rs : List EvaluatedResponse) : String :=
  specPick (specTier rs)

/-! ## GenerationEvaluationPipeline result collection (C3)

Source: `src/AgentTools.py:601-650` (`generate_and_evaluate_node`): each unit
runs in a worker pool; `future.result()` is taken inside `try/except`, so a
raising unit contributes an `Exception` entry to `results` rather than
propagating; the follow-up loop turns `Exception` entries into one monologue
line each and keeps them out of `evaluated_responses`.
-/

/-- Per-unit token usage as summed by the node. -/
structure TokenUsage where
  input : ℕ
  output : ℕ
  total : ℕ
deriving DecidableEq

/-- What `_generate_and_evaluate_action` returns on success: the evaluated
response, its monologue line, and the unit's token usage (a 3-tuple). -/
structure UnitSuccess where
  evaluated : EvaluatedResponse
  monologue : String
  usage : TokenUsage
deriving DecidableEq

/-- One internal-monologue line produced by the collection loop, tagged by
which format string produced it: `.failure a e` is the
`"  - [a] 在并行执行中捕获到致命错误: e"` line of the `isinstance(result, Exception)`
branch, `.info s` is a success unit's own monologue entry. -/
inductive TraceEntry
  | failure (action : String) (err : String)
  | info (s : String)
deriving DecidableEq

/-- The `for i, result in enumerate(results)` loop of
`generate_and_evaluate_node` (`src/AgentTools.py:632-650`), paired with the
action labels it reads via `candidate_actions[i]`.  An `Exception` result adds
one failure trace line and nothing to the evaluated list; a success result adds
its evaluated response (a non-empty dict, hence truthy), its monologue line
(non-empty, hence truthy) and its token total. -/
def collectUnitResults : List (String × Except String UnitSuccess) →
    List EvaluatedResponse × List TraceEntry × ℕ
  | [] => ([], [], 0)
  | (action, .error e) :: rest =>
      ((collectUnitResults rest).1,
       .failure action e :: (collectUnitResults rest).2.1,
       (collectUnitResults rest).2.2)
  | (_, .ok u) :: rest =>
      (u.evaluated :: (collectUnitResults rest).1,
       .info u.monologue :: (collectUnitResults rest).2.1,
       u.usage.total + (collectUnitResults rest).2.2)

/-- `generate_and_evaluate_node`'s fan-out/fan-in (`src/AgentTools.py:601-650`)
over unit outcomes: one unit per candidate action, `results` collected in
completion order (`as_completed`, any permutation of the submitted units'
outcomes), then zipped positionally against `candidate_actions` by the
collection loop. -/
def generate_and_evaluate_node (candidate_actions : List String)
    (results : List (Except String UnitSuccess)) :
    List EvaluatedResponse × List TraceEntry × ℕ :=
  collectUnitResults (candidate_actions.zip results)

/-- A unit outcome counts as a failure. -/
def unitFailed (r : Except String UnitSuccess) : Bool :=
  match r with
  | .error _ => true
  | .ok _ => false

/-- A trace entry is a parallel-execution failure line. -/
def isFailureEntry (t : TraceEntry) : Bool :=
  match t with
  | .failure _ _ => true
  | .info _ => false

/-! ## StageStateMachine (C7)

Source: `src/user_emotion_analysis_agent.py:161-191` (stage block of
`_design_node`): a forward-transition table keyed on the current stage,
followed by the regression checks, which test the *current* (pre-transition)
stage and overwrite `new_stage`.
-/

/-- The stage transition of `_design_node`
(`src/user_emotion_analysis_agent.py:161-191`). -/
def stage_transition (current_stage : String) (turn_count : ℕ)
    (comfort_level trust_level familiarity_level : ℚ)
    (customer_intent : String) : String :=
  let new_stage :=
    if current_stage = "initial_contact" then
      if turn_count ≥ 1 ∧ comfort_level > 2/10 then "ice_breaking" else current_stage
    else if current_stage = "ice_breaking" then
      if familiarity_level > 3/10 then "subtle_expertise" else current_stage
    else if current_stage = "subtle_expertise" then
      if trust_level > 4/10 then "pain_point_mining" else current_stage
    else if current_stage = "pain_point_mining" then
      if trust_level > 6/10 ∧ customer_intent ∈ ["medium", "high"] then
        "solution_visualization" else current_stage
    else if current_stage = "solution_visualization" then
      if trust_level > 7/10 ∧ customer_intent = "high" then
        "natural_invitation" else current_stage
    else current_stage
  if comfort_level < 3/10 ∧ current_stage ∉ ["initial_contact", "ice_breaking"] then
    "ice_breaking"
  else if trust_level < 2/10 ∧ current_stage ∉ ["initial_contact"] then
    "initial_contact"
  else new_stage

/-! ## CandidateActionSelector (C4, C5, C6)

Source: `src/user_emotion_analysis_agent.py:200-360` (candidate block of
`_design_node`).  The block computes a candidate list through a priority
cascade, emotion/intent overrides, singleton expansion / truncation and a
default, and finally returns `list(set(candidate_actions))`.
-/

/-- `CustomerIntent` as read by the candidate cascade. -/
structure CustomerIntent where
  intent_type : String
  confidence : ℚ
deriving DecidableEq

/-- Priority 5: the per-stage default table
(`src/user_emotion_analysis_agent.py:246-280`).  An unknown stage value leaves
`candidate_actions = []`. -/
def candidateStageDefault (new_stage : String) (turn_count : ℕ)
    (trust_level familiarity_level : ℚ) (customer_intent_level : String)
    (intent : Option CustomerIntent) : List String :=
  if new_stage = "initial_contact" then
    ["greeting", "needs_analysis", "value_display"]
  else if new_stage = "ice_breaking" then
    if turn_count % 4 = 0 then ["rapport_building"]
    else ["rapport_building", "needs_analysis", "value_display"]
  else if new_stage = "subtle_expertise" then
    ["value_display", "needs_analysis"] ++
      (if familiarity_level > 4/10 then ["needs_analysis"] else [])
  else if new_stage = "pain_point_mining" then
    if (intent.map (fun i => i.intent_type)) = some "info_seeking" then
      ["value_display", "needs_analysis"]
    else
      ["needs_analysis", "pain_point_test"] ++
        (if trust_level > 6/10 then ["value_display"] else [])
  else if new_stage = "solution_visualization" then
    ["value_pitch", "value_display"] ++
      (if customer_intent_level = "high" then ["active_close"] else [])
  else if new_stage = "natural_invitation" then
    ["active_close"] ++ (if customer_intent_level ≠ "high" then ["value_pitch"] else [])
  else []

/-- Priority cascade 0–5 (`src/user_emotion_analysis_agent.py:203-280`):
invitation confirmation, explicit appointment intents, info seeking, price
inquiry, concern raised, then the per-stage default table. -/
def candidateBase (new_stage : String) (turn_count : ℕ)
    (trust_level comfort_level familiarity_level : ℚ)
    (customer_intent_level : String) (intent : Option CustomerIntent)
    (invitation_status : Option ℤ) : List String :=
  if invitation_status = some 1 then
    ["active_close", "value_display"]
  else
    match intent with
    | some i =>
      if i.intent_type ∈ ["appointment_request", "time_confirmation", "ready_to_book"] then
        if i.confidence > 8/10 then ["active_close", "value_display"]
        else ["needs_analysis", "value_display"]
      else if i.intent_type = "info_seeking" then
        ["value_display"] ++ (if familiarity_level > 4/10 then ["needs_analysis"] else [])
      else if i.intent_type = "price_inquiry" then
        ["value_display", "value_pitch"] ++ (if trust_level > 5/10 then ["active_close"] else [])
      else if i.intent_type = "concern_raised" then
        ["stress_response", "rapport_building"] ++
          (if comfort_level < 4/10 then ["rapport_building"] else [])
      else
        candidateStageDefault new_stage turn_count trust_level familiarity_level
          customer_intent_level intent
    | none =>
      candidateStageDefault new_stage turn_count trust_level familiarity_level
        customer_intent_level intent

/-- Emotion override (`src/user_emotion_analysis_agent.py:296-303`):
`trust_level < 0.3` replaces the whole list; otherwise `comfort_level < 0.2`
in a late stage prepends `stress_response`. -/
def candidateEmotionOverride (actions : List String) (new_stage : String)
    (trust_level comfort_level : ℚ) : List String :=
  if trust_level < 3/10 then
    ["rapport_building", "stress_response", "needs_analysis"]
  else if comfort_level < 2/10 ∧
      new_stage ∈ ["solution_visualization", "natural_invitation"] then
    "stress_response" :: actions
  else
    actions

/-- Intent-level override (`src/user_emotion_analysis_agent.py:305-312`):
`fake_high` appends `reverse_probe` when absent; `elif` `low` in a late stage
replaces the list. -/
def candidateIntentOverride (actions : List String) (new_stage : String)
    (customer_intent_level : String) : List String :=
  if customer_intent_level = "fake_high" ∧ "reverse_probe" ∉ actions then
    actions ++ ["reverse_probe"]
  else if ¬(customer_intent_level = "fake_high" ∧ "reverse_probe" ∉ actions) ∧
      customer_intent_level = "low" ∧
      new_stage ∈ ["solution_visualization", "natural_invitation"] then
    ["rapport_building", "needs_analysis", "stress_response"]
  else
    actions

/-- Singleton expansion via the companion table
(`src/user_emotion_analysis_agent.py:317-338`), keyed on
`candidate_actions[0]`. -/
def expandSingleton (actions : List String) (comfort_level trust_level : ℚ) : List String :=
  if actions.head? = some "active_close" then
    (actions ++ (if comfort_level < 6/10 then ["stress_response"] else [])) ++
      (if trust_level > 7/10 then ["value_display"] else [])
  else if actions.head? = some "value_display" ∨ actions.head? = some "value_pitch" then
    (actions ++ ["needs_analysis"]) ++ (if trust_level > 6/10 then ["active_close"] else [])
  else if actions.head? = some "stress_response" then
    actions ++ ["rapport_building"]
  else actions

/-- Search-space management (`src/user_emotion_analysis_agent.py:314-346`):
expand a singleton, truncate to the first 3 when larger than 3, and default an
empty list to `["rapport_building"]`. -/
def sizeManage (actions : List String) (comfort_level trust_level : ℚ) : List String :=
  let managed :=
    if actions.length = 1 then expandSingleton actions comfort_level trust_level
    else if actions.length > 3 then actions.take 3
    else actions
  if managed = [] then ["rapport_building"] else managed

/-- The full candidate list of `_design_node` right before the final
`list(set(candidate_actions))` (`src/user_emotion_analysis_agent.py:161-346`):
stage transition, priority cascade, both override blocks, then size
management. -/
def design_candidate_actions (current_stage : String) (turn_count : ℕ)
    (trust_level comfort_level familiarity_level : ℚ)
    (customer_intent_level : String) (intent : Option CustomerIntent)
    (invitation_status : Option ℤ) : List String :=
  let new_stage := stage_transition current_stage turn_count comfort_level
    trust_level familiarity_level customer_intent_level
  let base := candidateBase new_stage turn_count trust_level comfort_level
    familiarity_level customer_intent_level intent invitation_status
  let afterEmotion := candidateEmotionOverride base new_stage trust_level comfort_level
  let afterIntent := candidateIntentOverride afterEmotion new_stage customer_intent_level
  sizeManage afterIntent comfort_level trust_level

/-- `out` is a possible value of CPython's `list(set(pre))` (salted string
hashing: the distinct elements of `pre`, each exactly once, in an unspecified
order). -/
def pySetList (pre out : List String) : Prop :=
  out.Nodup ∧ out.toFinset = pre.toFinset

instance (pre out : List String) : Decidable (pySetList pre out) := by
  unfold pySetList; infer_instance

/-- The nine candidate-action labels of the data model. -/
def actionLabels : List String :=
  ["greeting", "rapport_building", "needs_analysis", "value_display",
   "stress_response", "pain_point_test", "value_pitch", "active_close",
   "reverse_probe"]

/-- Helper for `firstSeenDedup`: keep elements not yet seen. -/
def firstSeenDedupAux (seen : List String) : List String → List String
  | [] => []
  | a :: l => if a ∈ seen then firstSeenDedupAux seen l
              else a :: firstSeenDedupAux (a :: seen) l

/-- Order-preserving deduplication keeping the first occurrence of each
element — what "dedup preserving first-seen order" means for a list. -/
def firstSeenDedup (l : List String) : List String := firstSeenDedupAux [] l

/-! ## ProactiveEventScheduler (C8, C9, C10)

Sources: `src/prompts/Prompts.py:288-395`
(`get_event_decision_prompt_triggered`, hard override and bucket arithmetic),
`src/utils.py:872-890` (`parse_event_decision`), `src/nodes.py:1600-1775`
(`event_triggered_node`) and `src/nodes.py:1777-1938`
(`event_untriggered_node`).

Instants are seconds (`ℤ`) since an epoch falling on Monday 00:00 local time
(fixed UTC+8).  `int(x)` truncation toward zero is `Int.tdiv`; Python calendar
field reads (`hour`, `weekday`, `replace`) are floor-based, i.e. `Int.ediv` /
`Int.emod`.
-/

/-- `EventType` enum (`src/states.py:7-13`). -/
inductive EventType
  | opening_greeting
  | customer_followup
  | appointment_reminder
  | pending_activation
  | connection_attempt
deriving DecidableEq

/-- `EventType(s)`: `some` the member whose value is `s`, `none` when the
constructor raises `ValueError`. -/
def eventTypeOfString (s : String) : Option EventType :=
  if s = "opening_greeting" then some .opening_greeting
  else if s = "customer_followup" then some .customer_followup
  else if s = "appointment_reminder" then some .appointment_reminder
  else if s = "pending_activation" then some .pending_activation
  else if s = "connection_attempt" then some .connection_attempt
  else none

/-- A time-string field of the decision JSON: `valid t` is a string
`datetime.fromisoformat` accepts (denoting instant `t`), `invalid` one it
rejects. -/
inductive TimeStr
  | valid (t : ℤ)
  | invalid
deriving DecidableEq

/-- The decision mapping extracted from the model response:
`event_type`/`event_time`/`appointment_time` keys (`none` = key missing, null,
or — for times — an empty, falsy string). -/
structure EventDecision where
  event_type : Option String
  event_time : Option TimeStr
  appointment_time : Option TimeStr
deriving DecidableEq

/-- A model response as seen by `parse_event_decision`: either a brace-matched
substring that `json.loads` accepts, or no usable JSON at all (no braces, or
`json.loads` raising). -/
inductive DecisionResponse
  | json (d : EventDecision)
  | noJson
deriving DecidableEq

/-- `parse_event_decision` (`src/utils.py:872-890`): extract the
first-`{`-to-last-`}` substring and `json.loads` it; on any failure return the
fallback mapping `pending_activation` at the current time. -/
def parse_event_decision (now : ℤ) : DecisionResponse → EventDecision
  | .json d => d
  | .noJson =>
      { event_type := some "pending_activation"
        event_time := some (.valid now)
        appointment_time := none }

/-- Decision-to-instance step of both event nodes
(`src/nodes.py:1718-1745`): `event_decision.get("event_type",
"pending_activation")` run through `EventType(...)` with `ValueError` caught to
`PENDING_ACTIVATION`; `event_time` parsed with any failure (or falsy value)
replaced by `datetime.now`.  (A present-but-null `event_type` also ends in
`PENDING_ACTIVATION`, via `ValueError`.) -/
def decisionToInstance (now : ℤ) (d : EventDecision) : EventType × ℤ :=
  let event_type := (eventTypeOfString (d.event_type.getD "pending_activation")).getD
    .pending_activation
  let event_time :=
    match d.event_time with
    | some (.valid t) => t
    | some .invalid => now
    | none => now
  (event_type, event_time)

/-- The `appointment_time` parse of both event nodes
(`src/nodes.py:1734-1740`): kept only when present and parseable. -/
def decisionAppointment (d : EventDecision) : Option ℤ :=
  match d.appointment_time with
  | some (.valid t) => some t
  | _ => none

/-- Floor `t` to the whole minute: `replace(second=0, microsecond=0)`. -/
def minuteFloor (t : ℤ) : ℤ := t - t % 60

/-- Floor `t` to the start of its day. -/
def dayFloor (t : ℤ) : ℤ := t - t % 86400

/-- The `hour` field of the instant `t`. -/
def hourOf (t : ℤ) : ℤ := Int.ediv (t % 86400) 3600

/-- Python `weekday()` (Monday = 0) under the Monday-epoch convention. -/
def weekdayOf (t : ℤ) : ℤ := (Int.ediv t 86400) % 7

/-- The `random.randint` draws of the hard-override time computation, one per
call site (`src/prompts/Prompts.py:330-375`). -/
structure Jitter where
  min2to5 : ℤ
  min15to30 : ℤ
  hour1to2 : ℤ
  hour3to4 : ℤ
  lateMin0to30 : ℤ
  satTodayHour7to9 : ℤ
  satTodayMin0to59 : ℤ
  push5to10 : ℤ
  satNextHour7to9 : ℤ
  satNextMin0to59 : ℤ

/-- The inclusive bounds `random.randint` guarantees for each draw. -/
def Jitter.valid (j : Jitter) : Prop :=
  (2 ≤ j.min2to5 ∧ j.min2to5 ≤ 5) ∧
  (15 ≤ j.min15to30 ∧ j.min15to30 ≤ 30) ∧
  (1 ≤ j.hour1to2 ∧ j.hour1to2 ≤ 2) ∧
  (3 ≤ j.hour3to4 ∧ j.hour3to4 ≤ 4) ∧
  (0 ≤ j.lateMin0to30 ∧ j.lateMin0to30 ≤ 30) ∧
  (7 ≤ j.satTodayHour7to9 ∧ j.satTodayHour7to9 ≤ 9) ∧
  (0 ≤ j.satTodayMin0to59 ∧ j.satTodayMin0to59 ≤ 59) ∧
  (5 ≤ j.push5to10 ∧ j.push5to10 ≤ 10) ∧
  (7 ≤ j.satNextHour7to9 ∧ j.satNextHour7to9 ≤ 9) ∧
  (0 ≤ j.satNextMin0to59 ∧ j.satNextMin0to59 ≤ 59)

/-- The escalating-bucket next-time computation of the hard override
(`src/prompts/Prompts.py:322-381`).  `minutes_since_last` is
`int(time_diff.total_seconds() / 60)` — truncation toward zero, `Int.tdiv`.
`none` for `last_active_send_time` (falsy input, or an unparsable string) gives
the `now + 2min` fallbacks, floored to the minute. -/
def nextConnectionAttemptTime (now : ℤ) (last_active_send_time : Option ℤ)
    (j : Jitter) : ℤ :=
  match last_active_send_time with
  | none => minuteFloor (now + 120)
  | some la =>
    let minutes_since_last := Int.tdiv (now - la) 60
    if minutes_since_last ≤ 2 then now + 60 * j.min2to5
    else if minutes_since_last ≤ 15 then now + 60 * j.min15to30
    else if minutes_since_last ≤ 60 then now + 3600 * j.hour1to2
    else if minutes_since_last ≤ 180 then now + 3600 * j.hour3to4
    else if minutes_since_last ≤ 1440 then
      let tonight := dayFloor now + 23 * 3600 + 60 * j.lateMin0to30
      if hourOf now ≥ 23 then tonight + 86400 else tonight
    else
      let days_until_saturday := (5 - weekdayOf now) % 7
      if days_until_saturday = 0 then
        if hourOf now < 9 then
          let t := dayFloor now + 3600 * j.satTodayHour7to9 + 60 * j.satTodayMin0to59
          if t ≤ now then now + 60 * j.push5to10 else t
        else
          dayFloor (now + 7 * 86400) + 3600 * j.satNextHour7to9 + 60 * j.satNextMin0to59
      else
        dayFloor (now + days_until_saturday * 86400) +
          3600 * j.satNextHour7to9 + 60 * j.satNextMin0to59

/-- Conversation-history message roles, as read off `msg.type`
(`src/prompts/Prompts.py:305-313`). -/
def countHumanMessages (history : List String) : ℕ :=
  history.countP (fun t => t = "human")

/-- Hard override of `get_event_decision_prompt_triggered`
(`src/prompts/Prompts.py:301-395`): when the history has zero human-authored
messages, return the `connection_attempt` decision JSON (which the node then
feeds through `parse_event_decision`); otherwise fall through to the LLM
prompt. -/
def triggeredHardOverride (now : ℤ) (last_active_send_time : Option ℤ)
    (j : Jitter) (history : List String) : Option EventDecision :=
  if countHumanMessages history = 0 then
    some { event_type := some "connection_attempt"
           event_time := some (.valid (nextConnectionAttemptTime now last_active_send_time j))
           appointment_time := none }
  else
    none

/-- A timestamp-valued entry of the loosely-typed state dict
(`user_last_reply_time : Optional[str]`, `src/states.py:76`): absent key,
`None`, the empty string, or an ISO string denoting instant `t`. -/
inductive TimeStrField
  | missing
  | null
  | emptyStr
  | val (t : ℤ)
deriving DecidableEq

/-- The update record a scheduler node returns on its success path
(`src/nodes.py:1758-1764` and `src/nodes.py:1922-1928`); the node writes no
other state key, and never mutates its input dict. -/
structure SchedulerUpdate where
  event_instance : EventType × ℤ
  appointment_time : Option ℤ
  user_last_reply_time : TimeStrField
  last_active_send_time : TimeStrField
deriving DecidableEq

/-- `event_triggered_node` (`src/nodes.py:1600-1764`): build the triggered
prompt; when its hard override returned a decision JSON, parse that directly,
otherwise parse the LLM response; build the event instance; set
`last_active_send_time` to `now` floored to the minute, and return
`user_last_reply_time` re-read from the input via `state_dict.get(.... , "")`
unchanged (its `Optional[str]` values are never `datetime` instances, so the
normalising branch does not fire). -/
def event_triggered_node (now : ℤ) (last_active_send_time : Option ℤ)
    (j : Jitter) (history : List String) (llm_response : DecisionResponse)
    (ctx_user_last_reply_time : TimeStrField) : SchedulerUpdate :=
  let decision :=
    match triggeredHardOverride now last_active_send_time j history with
    | some d => parse_event_decision now (.json d)
    | none => parse_event_decision now llm_response
  { event_instance := decisionToInstance now decision
    appointment_time := decisionAppointment decision
    user_last_reply_time :=
      match ctx_user_last_reply_time with
      | .missing => .emptyStr
      | f => f
    last_active_send_time := .val (minuteFloor now) }

/-- `event_untriggered_node` (`src/nodes.py:1777-1928`): always delegates to
the LLM decision; sets both `user_last_reply_time` and
`last_active_send_time` to `now` floored to the minute. -/
def event_untriggered_node (now : ℤ) (llm_response : DecisionResponse) :
    SchedulerUpdate :=
  let decision := parse_event_decision now llm_response
  { event_instance := decisionToInstance now decision
    appointment_time := decisionAppointment decision
    user_last_reply_time := .val (minuteFloor now)
    last_active_send_time := .val (minuteFloor now) }

/-! # Theorems -/

/-! ## C1 — EmotionalState clamp invariant -/

/-- Every validated field value lies in `[0,1]`. -/
theorem validatedFieldValue_mem (v : Option PyValue) :
    0 ≤ validatedFieldValue v ∧ validatedFieldValue v ≤ 1 := by
  have hc : ∀ q : ℚ, 0 ≤ clamp01 q ∧ clamp01 q ≤ 1 := by
    intro q
    refine ⟨le_max_left 0 _, max_le (by norm_num) ((min_le_left 1 q))⟩
  rcases v with _ | pv
  · simp only [validatedFieldValue]
    norm_num
  · rcases pv with q | q | _
    · exact hc q
    · exact hc q
    · simp only [validatedFieldValue]
      norm_num

/-- C1 (counterexample): the claim "each of the 7 fields lies in [0,1] after
construction" fails on the safe construction path: feeding
`safe_create_emotional_state` the dictionary `{"trust_level": 1.5}` produces an
`EmotionalState` with `trust_level = 1.5 ∉ [0,1]` — the function coerces to
`float` but never clamps. -/
theorem safe_create_emotional_state_escapes_range :
    ¬ emotionalStateInRange
      (safe_create_emotional_state [("trust_level", .num (3/2))]) := by
  intro h
  have ht : (safe_create_emotional_state [("trust_level", .num (3/2))]).trust_level
      = 3/2 := rfl
  have hle := h.2.2.2.2.2.2.2
  rw [ht] at hle
  norm_num at hle

/-- C1 (amended): the clamp invariant holds on the validator path — every
`EmotionalState` built by `ResponseValidator.validate_emotional_state` has all
7 fields in `[0,1]`; the `safe_create_emotional_state` path only coerces each
field to a float (missing or non-numeric values default to `0.0`) and does not
clamp. -/
theorem validate_emotional_state_in_range (d : PyDict) :
    emotionalStateInRange (validate_emotional_state d) :=
  ⟨validatedFieldValue_mem _, validatedFieldValue_mem _, validatedFieldValue_mem _,
   validatedFieldValue_mem _, validatedFieldValue_mem _, validatedFieldValue_mem _,
   validatedFieldValue_mem _⟩

/-! ## C2 — ResponseSelector -/

theorem insertByScoreDesc_ne_nil (r : EvaluatedResponse) (l : List EvaluatedResponse) :
    insertByScoreDesc r l ≠ [] := by
  cases l with
  | nil => simp [insertByScoreDesc]
  | cons x xs =>
    simp only [insertByScoreDesc]
    split <;> simp

theorem sortedByScoreDesc_cons_ne_nil (r : EvaluatedResponse) (l : List EvaluatedResponse) :
    sortedByScoreDesc (r :: l) ≠ [] :=
  insertByScoreDesc_ne_nil r (sortedByScoreDesc l)

theorem length_insertByScoreDesc (r : EvaluatedResponse) :
    ∀ l : List EvaluatedResponse, (insertByScoreDesc r l).length = l.length + 1
  | [] => rfl
  | x :: xs => by
    simp only [insertByScoreDesc]
    split
    · simp [length_insertByScoreDesc r xs]
    · simp

theorem length_sortedByScoreDesc :
    ∀ l : List EvaluatedResponse, (sortedByScoreDesc l).length = l.length
  | [] => rfl
  | x :: xs => by
    simp only [sortedByScoreDesc]
    rw [length_insertByScoreDesc, length_sortedByScoreDesc xs]
    rfl

theorem mem_insertByScoreDesc {x r : EvaluatedResponse} :
    ∀ {l : List EvaluatedResponse}, x ∈ insertByScoreDesc r l ↔ x = r ∨ x ∈ l
  | [] => by simp [insertByScoreDesc]
  | y :: ys => by
    simp only [insertByScoreDesc]
    split
    · simp only [List.mem_cons, mem_insertByScoreDesc (l := ys)]
      tauto
    · simp only [List.mem_cons]

theorem mem_sortedByScoreDesc {x : EvaluatedResponse} :
    ∀ {l : List EvaluatedResponse}, x ∈ sortedByScoreDesc l ↔ x ∈ l
  | [] => Iff.rfl
  | y :: ys => by
    simp only [sortedByScoreDesc, mem_insertByScoreDesc,
      mem_sortedByScoreDesc (l := ys), List.mem_cons]

/-- The head of the stable descending sort is the first occurrence of the
maximal score. -/
theorem headD_sortedByScoreDesc (d : EvaluatedResponse) :
    ∀ (r : EvaluatedResponse) (l : List EvaluatedResponse),
      (sortedByScoreDesc (r :: l)).headD d = firstMaxByScore r l
  | _, [] => rfl
  | r, x :: xs => by
    obtain ⟨h, t, heq⟩ := List.exists_cons_of_ne_nil (sortedByScoreDesc_cons_ne_nil x xs)
    have ih := headD_sortedByScoreDesc d x xs
    rw [heq, List.headD_cons] at ih
    show (insertByScoreDesc r (sortedByScoreDesc (x :: xs))).headD d
      = firstMaxByScore r (x :: xs)
    rw [heq]
    simp only [firstMaxByScore, ← ih]
    simp only [insertByScoreDesc]
    split <;> simp

theorem firstMaxByScore_mem (r : EvaluatedResponse) :
    ∀ l : List EvaluatedResponse, firstMaxByScore r l ∈ r :: l
  | [] => List.mem_singleton.mpr rfl
  | x :: xs => by
    have ih := firstMaxByScore_mem x xs
    simp only [firstMaxByScore]
    split
    · simp only [List.mem_cons] at ih ⊢
      tauto
    · simp

theorem firstMaxByScore_score_ge (r : EvaluatedResponse) :
    ∀ (l : List EvaluatedResponse) (x : EvaluatedResponse), x ∈ r :: l →
      x.score ≤ (firstMaxByScore r l).score
  | [], x, hx => by
    simp only [List.mem_singleton] at hx
    subst hx
    exact le_refl _
  | y :: ys, x, hx => by
    simp only [firstMaxByScore]
    rcases List.mem_cons.mp hx with rfl | hx'
    · split
      · next hgt => exact le_of_lt hgt
      · exact le_refl _
    · have hx2 := firstMaxByScore_score_ge y ys x hx'
      split
      · exact hx2
      · next hle => exact hx2.trans (not_lt.mp hle)

theorem firstMaxByScore_of_head_max (r : EvaluatedResponse) :
    ∀ l : List EvaluatedResponse, (∀ x ∈ l, x.score ≤ r.score) →
      firstMaxByScore r l = r
  | [], _ => rfl
  | x :: xs, h => by
    simp only [firstMaxByScore]
    have hm : (firstMaxByScore x xs).score ≤ r.score :=
      h _ (firstMaxByScore_mem x xs)
    rw [if_neg (not_lt.mpr hm)]

/-- The selection block agrees with the spec's pick on any tier. -/
theorem selectFromTier_eq_specPick :
    ∀ l : List EvaluatedResponse, selectFromTier l = specPick l
  | [] => rfl
  | [r] => by simp [selectFromTier, specPick]
  | r :: r2 :: rest => by
    have hlen : (r :: r2 :: rest).length ≠ 1 := by simp
    simp only [selectFromTier, specPick]
    rw [if_neg (by simp), if_neg hlen, headD_sortedByScoreDesc]

/-- The spec's pick is insensitive to pre-sorting the tier. -/
theorem specPick_sortedByScoreDesc :
    ∀ rs : List EvaluatedResponse, rs ≠ [] →
      specPick (sortedByScoreDesc rs) = specPick rs
  | [], h => absurd rfl h
  | [r], _ => rfl
  | r :: r2 :: rest, _ => by
    obtain ⟨h, t, heq⟩ :=
      List.exists_cons_of_ne_nil (sortedByScoreDesc_cons_ne_nil r (r2 :: rest))
    have hhead := headD_sortedByScoreDesc default r (r2 :: rest)
    rw [heq, List.headD_cons] at hhead
    have hlen : t ≠ [] := by
      have := congrArg List.length heq
      rw [length_sortedByScoreDesc] at this
      intro ht
      subst ht
      simp at this
    obtain ⟨t1, trest, rfl⟩ := List.exists_cons_of_ne_nil hlen
    rw [heq]
    simp only [specPick]
    rw [firstMaxByScore_of_head_max, hhead]
    intro x hx
    have hxmem : x ∈ r :: r2 :: rest := by
      have : x ∈ sortedByScoreDesc (r :: r2 :: rest) := by
        rw [heq]; exact List.mem_cons_of_mem h hx
      exact mem_sortedByScoreDesc.mp this
    calc x.score ≤ (firstMaxByScore r (r2 :: rest)).score :=
          firstMaxByScore_score_ge r (r2 :: rest) x hxmem
      _ = h.score := by rw [hhead]

/-- The selector's tier cascade refines the spec's selection, pointwise. -/
theorem self_verification_matches (rs : List EvaluatedResponse) :
    self_verification_node rs = responseSelectorSpec rs := by
  by_cases h1 : rs.filter (fun r => r.score > 3/10) = []
  · by_cases h2 : rs.filter (fun r => r.score > 2/10) = []
    · by_cases h3 : rs = []
      · subst h3; rfl
      · have hcode : highQualityTier rs = sortedByScoreDesc rs := by
          simp [highQualityTier, h1, h2, h3]
        have hspec : specTier rs = rs := by
          simp [specTier, h1, h2]
        rw [self_verification_node, hcode, responseSelectorSpec, hspec,
          selectFromTier_eq_specPick, specPick_sortedByScoreDesc rs h3]
    · have hcode : highQualityTier rs = rs.filter (fun r => r.score > 2/10) := by
        simp [highQualityTier, h1, h2]
      have hspec : specTier rs = rs.filter (fun r => r.score > 2/10) := by
        simp [specTier, h1, h2]
      rw [self_verification_node, hcode, responseSelectorSpec, hspec,
        selectFromTier_eq_specPick]
  · have hcode : highQualityTier rs = rs.filter (fun r => r.score > 3/10) := by
      simp [highQualityTier, h1]
    have hspec : specTier rs = rs.filter (fun r => r.score > 3/10) := by
      simp [specTier, h1]
    rw [self_verification_node, hcode, responseSelectorSpec, hspec,
      selectFromTier_eq_specPick]

/-- C2: the ResponseSelector implements the spec's cascade exactly — keep
score > 0.3, else score > 0.2, else the full list sorted by score descending;
an empty input yields the constant fallback; a single-survivor tier is
selected directly, and otherwise the maximal score wins with ties resolved by
first occurrence in input list order.  In particular the input
`[{score:0.25}, {score:0.15}]` yields the 0.25 response. -/
theorem self_verification_node_correct :
    (∀ rs, self_verification_node rs = responseSelectorSpec rs) ∧
    self_verification_node [] = "嗯嗯，好的" ∧
    self_verification_node
      [{ action := "a", response := "resp25", score := 1/4, reasoning := "" },
       { action := "b", response := "resp15", score := 3/20, reasoning := "" }]
      = "resp25" := by
  refine ⟨self_verification_matches, rfl, ?_⟩
  have ht1 : List.filter (fun (r : EvaluatedResponse) => decide (r.score > 3/10))
      [{ action := "a", response := "resp25", score := 1/4, reasoning := "" },
       { action := "b", response := "resp15", score := 3/20, reasoning := "" }]
      = ([] : List EvaluatedResponse) := by
    rw [List.filter_cons, List.filter_cons]
    norm_num
  have ht2 : List.filter (fun (r : EvaluatedResponse) => decide (r.score > 2/10))
      [{ action := "a", response := "resp25", score := 1/4, reasoning := "" },
       { action := "b", response := "resp15", score := 3/20, reasoning := "" }]
      = [{ action := "a", response := "resp25", score := 1/4, reasoning := "" }] := by
    rw [List.filter_cons, List.filter_cons]
    norm_num
  rw [self_verification_node]
  have htier : highQualityTier
      [{ action := "a", response := "resp25", score := 1/4, reasoning := "" },
       { action := "b", response := "resp15", score := 3/20, reasoning := "" }]
      = [{ action := "a", response := "resp25", score := 1/4, reasoning := "" }] := by
    rw [highQualityTier]
    simp only [ht1, ht2]
    simp
  rw [htier]
  rfl

/-! ## C3 — pipeline failure isolation -/

theorem countP_add_countP_not {α : Type} (p : α → Bool) :
    ∀ l : List α, l.countP p + l.countP (fun a => !p a) = l.length
  | [] => rfl
  | x :: xs => by
    have ih := countP_add_countP_not p xs
    by_cases hx : p x
    · simp [List.countP_cons, hx]
      omega
    · simp [List.countP_cons, hx]
      omega

theorem collectUnitResults_counts :
    ∀ pairs : List (String × Except String UnitSuccess),
      (collectUnitResults pairs).1.length
          = pairs.countP (fun p => !unitFailed p.2) ∧
      (collectUnitResults pairs).2.1.countP isFailureEntry
          = pairs.countP (fun p => unitFailed p.2)
  | [] => ⟨rfl, rfl⟩
  | (a, r) :: rest => by
    obtain ⟨ih1, ih2⟩ := collectUnitResults_counts rest
    cases r with
    | error e =>
      simp only [collectUnitResults, List.countP_cons, unitFailed, isFailureEntry]
      constructor
      · simpa using ih1
      · simpa using ih2
    | ok u =>
      simp only [collectUnitResults, List.countP_cons, unitFailed, isFailureEntry,
        List.length_cons]
      constructor
      · simpa using ih1
      · simpa using ih2

/-- C3: a unit that raises is caught at its own boundary: with 3 candidate
actions of which exactly one unit's outcome is an exception, and results
gathered in any completion order, the evaluated-response list has length 2,
the trace gains exactly one failure entry, and the collection is a total
function — no exception escapes. -/
theorem generate_and_evaluate_node_isolates_failures
    (candidate_actions : List String) (run : String → Except String UnitSuccess)
    (results : List (Except String UnitSuccess))
    (hperm : results.Perm (candidate_actions.map run))
    (hlen : candidate_actions.length = 3)
    (herr : (candidate_actions.map run).countP unitFailed = 1) :
    (generate_and_evaluate_node candidate_actions results).1.length = 2 ∧
    (generate_and_evaluate_node candidate_actions results).2.1.countP
      isFailureEntry = 1 := by
  have hrlen : results.length = 3 := by
    rw [hperm.length_eq, List.length_map, hlen]
  have hzip_snd : (candidate_actions.zip results).map Prod.snd = results :=
    List.map_snd_zip candidate_actions results (by rw [hrlen, hlen])
  have hcnt_err : (candidate_actions.zip results).countP (fun p => unitFailed p.2) = 1 := by
    have hmap : ((candidate_actions.zip results).map Prod.snd).countP unitFailed
        = (candidate_actions.zip results).countP (fun p => unitFailed p.2) :=
      List.countP_map unitFailed Prod.snd (candidate_actions.zip results)
    rw [hzip_snd] at hmap
    rw [← hmap, hperm.countP_eq, herr]
  have hziplen : (candidate_actions.zip results).length = 3 := by
    rw [List.length_zip, hlen, hrlen]
    exact min_self 3
  have hcnt_ok : (candidate_actions.zip results).countP (fun p => !unitFailed p.2) = 2 := by
    have := countP_add_countP_not (fun p => unitFailed p.2) (candidate_actions.zip results)
    rw [hcnt_err, hziplen] at this
    omega
  obtain ⟨h1, h2⟩ := collectUnitResults_counts (candidate_actions.zip results)
  constructor
  · rw [generate_and_evaluate_node, h1, hcnt_ok]
  · rw [generate_and_evaluate_node, h2, hcnt_err]

theorem generate_and_evaluate_node_isolates_failures_witness :
    (generate_and_evaluate_node ["greeting", "rapport_building", "needs_analysis"]
        (["greeting", "rapport_building", "needs_analysis"].map
          (fun a => if a = "rapport_building" then Except.error "boom"
            else Except.ok ⟨⟨a, "ok", 1/2, "r"⟩, "m", ⟨0, 0, 0⟩⟩))).1.length = 2 ∧
    (generate_and_evaluate_node ["greeting", "rapport_building", "needs_analysis"]
        (["greeting", "rapport_building", "needs_analysis"].map
          (fun a => if a = "rapport_building" then Except.error "boom"
            else Except.ok ⟨⟨a, "ok", 1/2, "r"⟩, "m", ⟨0, 0, 0⟩⟩))).2.1.countP
      isFailureEntry = 1 :=
  generate_and_evaluate_node_isolates_failures
    ["greeting", "rapport_building", "needs_analysis"]
    (fun a => if a = "rapport_building" then Except.error "boom"
      else Except.ok ⟨⟨a, "ok", 1/2, "r"⟩, "m", ⟨0, 0, 0⟩⟩)
    _ (List.Perm.refl _) rfl rfl

/-! ## C7 — stage regression overrides forward transitions -/

/-- C7: regression is evaluated after the forward-transition table and
overrides its result: `comfort < 0.3` with a (pre-transition) stage outside
`{initial_contact, ice_breaking}` forces `ice_breaking`; otherwise
`trust < 0.2` with a stage other than `initial_contact` forces
`initial_contact` — regardless of which forward transition fired. -/
theorem stage_transition_regression (current_stage : String) (turn_count : ℕ)
    (comfort trust familiarity : ℚ) (customer_intent : String) :
    (comfort < 3/10 → current_stage ∉ ["initial_contact", "ice_breaking"] →
      stage_transition current_stage turn_count comfort trust familiarity
        customer_intent = "ice_breaking") ∧
    (¬(comfort < 3/10 ∧ current_stage ∉ ["initial_contact", "ice_breaking"]) →
      trust < 2/10 → current_stage ≠ "initial_contact" →
      stage_transition current_stage turn_count comfort trust familiarity
        customer_intent = "initial_contact") := by
  constructor
  · intro h1 h2
    simp only [stage_transition]
    rw [if_pos ⟨h1, h2⟩]
  · intro h12 h3 h4
    simp only [stage_transition]
    rw [if_neg h12, if_pos ⟨h3, fun hm => h4 (List.mem_singleton.mp hm)⟩]

theorem stage_transition_regression_witness :
    stage_transition "pain_point_mining" 5 (1/10) (1/2) 0 "low" = "ice_breaking" ∧
    stage_transition "ice_breaking" 5 (1/2) (1/10) (1/2) "low" = "initial_contact" := by
  constructor
  · exact (stage_transition_regression "pain_point_mining" 5 (1/10) (1/2) 0 "low").1
      (by norm_num) (by decide)
  · exact (stage_transition_regression "ice_breaking" 5 (1/2) (1/10) (1/2) "low").2
      (fun hc => absurd hc.1 (by norm_num)) (by norm_num) (by decide)

/-! ## C4, C5, C6 — CandidateActionSelector -/

/-- When trust < 0.3 the emotion override replaces the whole candidate list. -/
theorem candidateEmotionOverride_low_trust (actions : List String)
    (new_stage : String) (trust comfort : ℚ) (h : trust < 3/10) :
    candidateEmotionOverride actions new_stage trust comfort
      = ["rapport_building", "stress_response", "needs_analysis"] := by
  rw [candidateEmotionOverride, if_pos h]

theorem sizeManage_of_three (a b c : String) (comfort trust : ℚ) :
    sizeManage [a, b, c] comfort trust = [a, b, c] := by
  rw [sizeManage]
  simp

theorem sizeManage_of_four (a b c d : String) (comfort trust : ℚ) :
    sizeManage [a, b, c, d] comfort trust = [a, b, c] := by
  rw [sizeManage]
  simp

/-- With trust below the 0.3 override threshold, the produced candidate list
always denotes exactly {rapport_building, stress_response, needs_analysis}. -/
theorem design_candidate_actions_low_trust (current_stage : String)
    (turn_count : ℕ) (comfort familiarity : ℚ) (customer_intent_level : String)
    (intent : Option CustomerIntent) (invitation_status : Option ℤ) :
    (design_candidate_actions current_stage turn_count (1/10) comfort
        familiarity customer_intent_level intent invitation_status).toFinset
      = {"rapport_building", "stress_response", "needs_analysis"} := by
  simp only [design_candidate_actions]
  rw [candidateEmotionOverride_low_trust _ _ _ _ (by norm_num)]
  rw [candidateIntentOverride]
  split_ifs with h1 h2
  · rw [show (["rapport_building", "stress_response", "needs_analysis"]
        ++ ["reverse_probe"] : List String)
      = ["rapport_building", "stress_response", "needs_analysis", "reverse_probe"] from rfl]
    rw [sizeManage_of_four]
    decide
  · rw [sizeManage_of_three]
    decide
  · rw [sizeManage_of_three]
    decide

/-- C4: for every input with trust_level = 0.1 and arbitrary other inputs, the
final candidate set (after overrides, size management and the closing
`list(set(...))`) is exactly {rapport_building, stress_response,
needs_analysis}. -/
theorem design_low_trust_exact (current_stage : String) (turn_count : ℕ)
    (comfort familiarity : ℚ) (customer_intent_level : String)
    (intent : Option CustomerIntent) (invitation_status : Option ℤ)
    (out : List String)
    (h : pySetList (design_candidate_actions current_stage turn_count (1/10)
      comfort familiarity customer_intent_level intent invitation_status) out) :
    out.toFinset = {"rapport_building", "stress_response", "needs_analysis"} := by
  rw [h.2, design_candidate_actions_low_trust]

/-- The candidate list at one concrete sample input. -/
theorem design_at_low_trust_sample :
    design_candidate_actions "initial_contact" 0 (1/10) 1 1 "medium" none none
      = ["rapport_building", "stress_response", "needs_analysis"] := by
  have hstage : stage_transition "initial_contact" 0 1 (1/10) 1 "medium"
      = "initial_contact" := by
    simp only [stage_transition]
    norm_num
  simp only [design_candidate_actions, hstage]
  rw [candidateEmotionOverride_low_trust _ _ _ _ (by norm_num)]
  rw [candidateIntentOverride]
  split_ifs with h1 h2
  · exact absurd h1.1 (by decide)
  · exact absurd h2.2.1 (by decide)
  · rw [sizeManage_of_three]

theorem design_low_trust_exact_witness :
    pySetList (design_candidate_actions "initial_contact" 0 (1/10) 1 1 "medium"
      none none) ["rapport_building", "stress_response", "needs_analysis"] ∧
    (["rapport_building", "stress_response", "needs_analysis"] : List String).toFinset
      = {"rapport_building", "stress_response", "needs_analysis"} := by
  have hset : pySetList (design_candidate_actions "initial_contact" 0 (1/10) 1 1
      "medium" none none) ["rapport_building", "stress_response", "needs_analysis"] := by
    rw [pySetList, design_at_low_trust_sample]
    exact ⟨by decide, rfl⟩
  exact ⟨hset, design_low_trust_exact "initial_contact" 0 1 1 "medium" none none _ hset⟩

theorem expandSingleton_length (a : String) (comfort trust : ℚ) :
    1 ≤ (expandSingleton [a] comfort trust).length ∧
      (expandSingleton [a] comfort trust).length ≤ 3 := by
  rw [expandSingleton]
  split_ifs <;> simp

theorem sizeManage_length (l : List String) (comfort trust : ℚ) :
    1 ≤ (sizeManage l comfort trust).length ∧ (sizeManage l comfort trust).length ≤ 3 := by
  rw [sizeManage]
  by_cases h1 : l.length = 1
  · obtain ⟨a, rfl⟩ := List.length_eq_one.mp h1
    rw [if_pos h1]
    have hexp := expandSingleton_length a comfort trust
    have hne : expandSingleton [a] comfort trust ≠ [] := by
      intro he
      rw [he] at hexp
      simp at hexp
    rw [if_neg hne]
    exact hexp
  · rw [if_neg h1]
    by_cases h2 : l.length > 3
    · rw [if_pos h2]
      have htake : (l.take 3).length = 3 := by
        rw [List.length_take]
        omega
      have hne : l.take 3 ≠ [] := by
        intro he
        rw [he] at htake
        simp at htake
      rw [if_neg hne, htake]
      omega
    · rw [if_neg h2]
      by_cases h3 : l = []
      · rw [if_pos h3]
        simp
      · rw [if_neg h3]
        have : 0 < l.length := List.length_pos.mpr h3
        omega

theorem design_candidate_actions_length (current_stage : String) (turn_count : ℕ)
    (trust comfort familiarity : ℚ) (customer_intent_level : String)
    (intent : Option CustomerIntent) (invitation_status : Option ℤ) :
    1 ≤ (design_candidate_actions current_stage turn_count trust comfort
        familiarity customer_intent_level intent invitation_status).length ∧
      (design_candidate_actions current_stage turn_count trust comfort
        familiarity customer_intent_level intent invitation_status).length ≤ 3 := by
  simp only [design_candidate_actions]
  exact sizeManage_length _ _ _

/-- C5: for every input and every admissible `list(set(...))` output, the
returned candidate-action list has between 1 and 3 elements: singletons are
expanded, lists longer than 3 are truncated, the empty list defaults to
{rapport_building}, and deduplication cannot empty a non-empty list. -/
theorem design_candidate_count (current_stage : String) (turn_count : ℕ)
    (trust comfort familiarity : ℚ) (customer_intent_level : String)
    (intent : Option CustomerIntent) (invitation_status : Option ℤ)
    (out : List String)
    (h : pySetList (design_candidate_actions current_stage turn_count trust
      comfort familiarity customer_intent_level intent invitation_status) out) :
    1 ≤ out.length ∧ out.length ≤ 3 := by
  obtain ⟨hnd, hfs⟩ := h
  have hlen := design_candidate_actions_length current_stage turn_count trust
    comfort familiarity customer_intent_level intent invitation_status
  have hcard : out.toFinset.card = out.length := List.toFinset_card_of_nodup hnd
  have hle : out.toFinset.card ≤ (design_candidate_actions current_stage
      turn_count trust comfort familiarity customer_intent_level intent
      invitation_status).length := by
    rw [hfs]
    exact List.toFinset_card_le _
  have hpos : 0 < out.toFinset.card := by
    have hne : design_candidate_actions current_stage turn_count trust comfort
        familiarity customer_intent_level intent invitation_status ≠ [] := by
      intro he
      rw [he] at hlen
      simp at hlen
    obtain ⟨x, xs, hx⟩ := List.exists_cons_of_ne_nil hne
    refine Finset.card_pos.mpr ⟨x, ?_⟩
    rw [hfs, List.mem_toFinset, hx]
    exact List.mem_cons_self x xs
  omega

theorem design_candidate_count_witness :
    pySetList (design_candidate_actions "initial_contact" 0 (1/10) 1 1 "medium"
      none none) ["needs_analysis", "rapport_building", "stress_response"] ∧
    1 ≤ (["needs_analysis", "rapport_building", "stress_response"] : List String).length ∧
    (["needs_analysis", "rapport_building", "stress_response"] : List String).length ≤ 3 := by
  have hset : pySetList (design_candidate_actions "initial_contact" 0 (1/10) 1 1
      "medium" none none) ["needs_analysis", "rapport_building", "stress_response"] := by
    rw [pySetList, design_at_low_trust_sample]
    exact ⟨by decide, by decide⟩
  obtain ⟨hl, hu⟩ := design_candidate_count "initial_contact" 0 (1/10) 1 1
    "medium" none none _ hset
  exact ⟨hset, hl, hu⟩

theorem sizeManage_of_two (a b : String) (comfort trust : ℚ) :
    sizeManage [a, b] comfort trust = [a, b] := by
  rw [sizeManage]
  simp

theorem candidateStageDefault_subset (new_stage : String) (turn_count : ℕ)
    (trust familiarity : ℚ) (customer_intent_level : String)
    (intent : Option CustomerIntent) :
    ∀ a ∈ candidateStageDefault new_stage turn_count trust familiarity
      customer_intent_level intent, a ∈ actionLabels := by
  intro a ha
  rw [candidateStageDefault] at ha
  split_ifs at ha <;>
    (try simp only [List.cons_append, List.nil_append, List.append_nil] at ha) <;>
    fin_cases ha <;> decide

theorem candidateBase_subset (new_stage : String) (turn_count : ℕ)
    (trust comfort familiarity : ℚ) (customer_intent_level : String)
    (intent : Option CustomerIntent) (invitation_status : Option ℤ) :
    ∀ a ∈ candidateBase new_stage turn_count trust comfort familiarity
      customer_intent_level intent invitation_status, a ∈ actionLabels := by
  intro a ha
  rcases intent with _ | i <;> rw [candidateBase.eq_def] at ha
  · simp only at ha
    split_ifs at ha
    · fin_cases ha <;> decide
    · exact candidateStageDefault_subset _ _ _ _ _ _ a ha
  · simp only at ha
    split_ifs at ha <;>
      first
      | exact candidateStageDefault_subset _ _ _ _ _ _ a ha
      | ((try simp only [List.cons_append, List.nil_append, List.append_nil] at ha)
         fin_cases ha <;> decide)

theorem candidateEmotionOverride_subset (actions : List String)
    (new_stage : String) (trust comfort : ℚ)
    (hsub : ∀ a ∈ actions, a ∈ actionLabels) :
    ∀ a ∈ candidateEmotionOverride actions new_stage trust comfort,
      a ∈ actionLabels := by
  intro a ha
  rw [candidateEmotionOverride] at ha
  split_ifs at ha
  · fin_cases ha <;> decide
  · rcases List.mem_cons.mp ha with rfl | h
    · decide
    · exact hsub a h
  · exact hsub a ha

theorem candidateIntentOverride_subset (actions : List String)
    (new_stage : String) (customer_intent_level : String)
    (hsub : ∀ a ∈ actions, a ∈ actionLabels) :
    ∀ a ∈ candidateIntentOverride actions new_stage customer_intent_level,
      a ∈ actionLabels := by
  intro a ha
  rw [candidateIntentOverride] at ha
  split_ifs at ha
  · rcases List.mem_append.mp ha with h | h
    · exact hsub a h
    · fin_cases h <;> decide
  · fin_cases ha <;> decide
  · exact hsub a ha

theorem expandSingleton_subset (actions : List String) (comfort trust : ℚ)
    (hsub : ∀ a ∈ actions, a ∈ actionLabels) :
    ∀ a ∈ expandSingleton actions comfort trust, a ∈ actionLabels := by
  intro a ha
  rw [expandSingleton] at ha
  split_ifs at ha <;>
    first
    | exact hsub a ha
    | (rcases List.mem_append.mp ha with h | h
       · first
         | exact hsub a h
         | (rcases List.mem_append.mp h with h' | h'
            · exact hsub a h'
            · fin_cases h' <;> decide)
       · fin_cases h <;> decide)

theorem sizeManage_subset (actions : List String) (comfort trust : ℚ)
    (hsub : ∀ a ∈ actions, a ∈ actionLabels) :
    ∀ a ∈ sizeManage actions comfort trust, a ∈ actionLabels := by
  intro a ha
  rw [sizeManage] at ha
  split_ifs at ha
  · fin_cases ha <;> decide
  · exact expandSingleton_subset actions comfort trust hsub a ha
  · fin_cases ha <;> decide
  · exact hsub a (List.take_subset 3 actions ha)
  · fin_cases ha <;> decide
  · exact hsub a ha

theorem design_candidate_actions_subset (current_stage : String) (turn_count : ℕ)
    (trust comfort familiarity : ℚ) (customer_intent_level : String)
    (intent : Option CustomerIntent) (invitation_status : Option ℤ) :
    ∀ a ∈ design_candidate_actions current_stage turn_count trust comfort
      familiarity customer_intent_level intent invitation_status,
      a ∈ actionLabels := by
  simp only [design_candidate_actions]
  exact sizeManage_subset _ _ _
    (candidateIntentOverride_subset _ _ _
      (candidateEmotionOverride_subset _ _ _ _
        (candidateBase_subset _ _ _ _ _ _ _ _)))

/-- C6 (counterexample): dedup via `list(set(...))` does not preserve
first-seen order.  At a concrete input whose cascade produces
`["active_close", "value_display"]` (invitation confirmed, all overrides
inert), the output `["value_display", "active_close"]` is an admissible value
of `list(set(...))` — duplicate-free with the same element set — yet it is not
the first-seen-order dedup of the produced list, refuting the ordering claim. -/
theorem design_set_order_counterexample :
    pySetList (design_candidate_actions "initial_contact" 0 1 1 0 "medium" none
      (some 1)) ["value_display", "active_close"] ∧
    ["value_display", "active_close"]
      ≠ firstSeenDedup (design_candidate_actions "initial_contact" 0 1 1 0
          "medium" none (some 1)) := by
  have hstage : stage_transition "initial_contact" 0 1 1 0 "medium"
      = "initial_contact" := by
    simp only [stage_transition]
    norm_num
  have hbase : candidateBase "initial_contact" 0 1 1 0 "medium" none (some 1)
      = ["active_close", "value_display"] := by
    rw [candidateBase, if_pos rfl]
  have hpre : design_candidate_actions "initial_contact" 0 1 1 0 "medium" none
      (some 1) = ["active_close", "value_display"] := by
    simp only [design_candidate_actions, hstage, hbase]
    rw [candidateEmotionOverride]
    split_ifs with h1 h2
    · exact absurd h1 (by norm_num)
    · exact absurd h2.1 (by norm_num)
    · rw [candidateIntentOverride]
      split_ifs with h3 h4
      · exact absurd h3.1 (by decide)
      · exact absurd h4.2.1 (by decide)
      · rw [sizeManage_of_two]
  rw [pySetList, hpre]
  exact ⟨⟨by decide, by decide⟩, by decide⟩

/-- C6 (amended): the final `list(set(candidate_actions))` deduplicates —
each action appears at most once and the returned set of actions is exactly
the set produced by the cascade/override/expansion steps, every one of them a
valid candidate-action label — but the order of the returned list is
unspecified (`set` iteration order), not first-seen order. -/
theorem design_set_semantics (current_stage : String) (turn_count : ℕ)
    (trust comfort familiarity : ℚ) (customer_intent_level : String)
    (intent : Option CustomerIntent) (invitation_status : Option ℤ)
    (out : List String)
    (h : pySetList (design_candidate_actions current_stage turn_count trust
      comfort familiarity customer_intent_level intent invitation_status) out) :
    out.Nodup ∧
    out.toFinset = (design_candidate_actions current_stage turn_count trust
      comfort familiarity customer_intent_level intent invitation_status).toFinset ∧
    ∀ a ∈ out, a ∈ actionLabels := by
  refine ⟨h.1, h.2, ?_⟩
  intro a ha
  have hmem : a ∈ design_candidate_actions current_stage turn_count trust
      comfort familiarity customer_intent_level intent invitation_status := by
    have : a ∈ out.toFinset := List.mem_toFinset.mpr ha
    rw [h.2] at this
    exact List.mem_toFinset.mp this
  exact design_candidate_actions_subset _ _ _ _ _ _ _ _ a hmem

theorem design_set_semantics_witness :
    pySetList (design_candidate_actions "initial_contact" 0 (1/10) 1 1 "medium"
      none none) ["stress_response", "needs_analysis", "rapport_building"] ∧
    (["stress_response", "needs_analysis", "rapport_building"] : List String).Nodup ∧
    (["stress_response", "needs_analysis", "rapport_building"] : List String).toFinset
      = (design_candidate_actions "initial_contact" 0 (1/10) 1 1 "medium"
          none none).toFinset ∧
    ∀ a ∈ (["stress_response", "needs_analysis", "rapport_building"] : List String),
      a ∈ actionLabels := by
  have hset : pySetList (design_candidate_actions "initial_contact" 0 (1/10) 1 1
      "medium" none none)
      ["stress_response", "needs_analysis", "rapport_building"] := by
    rw [pySetList, design_at_low_trust_sample]
    exact ⟨by decide, by decide⟩
  obtain ⟨h1, h2, h3⟩ := design_set_semantics "initial_contact" 0 (1/10) 1 1
    "medium" none none _ hset
  exact ⟨hset, h1, h2, h3⟩

/-! ## C8 — triggered-mode zero-human-message override -/

/-- C8: in triggered mode with zero human-authored messages in the history,
the scheduler forces `event_type = connection_attempt`, and with
`last_active_send_time = now − 1 minute` the produced `event_time` lies in
`[now + 2min, now + 5min]`. -/
theorem event_triggered_zero_human_connection (now : ℤ) (la : Option ℤ)
    (j : Jitter) (history : List String) (llm : DecisionResponse)
    (ctx_user : TimeStrField)
    (hhist : countHumanMessages history = 0)
    (hj : j.valid)
    (hla : la = some (now - 60)) :
    (event_triggered_node now la j history llm ctx_user).event_instance.1
      = EventType.connection_attempt ∧
    now + 120 ≤ (event_triggered_node now la j history llm ctx_user).event_instance.2 ∧
    (event_triggered_node now la j history llm ctx_user).event_instance.2
      ≤ now + 300 := by
  subst hla
  have htime : nextConnectionAttemptTime now (some (now - 60)) j
      = now + 60 * j.min2to5 := by
    simp only [nextConnectionAttemptTime]
    have h60 : now - (now - 60) = 60 := by ring
    rw [h60]
    have htdiv : Int.tdiv 60 60 = 1 := by decide
    rw [htdiv]
    norm_num
  have hnode : (event_triggered_node now (some (now - 60)) j history llm
      ctx_user).event_instance
      = (EventType.connection_attempt, now + 60 * j.min2to5) := by
    have hct : eventTypeOfString "connection_attempt"
        = some EventType.connection_attempt := by decide
    simp only [event_triggered_node, triggeredHardOverride, hhist, if_pos,
      parse_event_decision, decisionToInstance, Option.getD_some, hct, htime]
  rw [hnode]
  have hb := hj.1
  constructor
  · rfl
  · constructor <;> simp only <;> omega

theorem event_triggered_zero_human_connection_witness :
    (event_triggered_node 1000 (some 940) ⟨3, 20, 1, 3, 10, 8, 30, 7, 8, 30⟩ []
        .noJson .null).event_instance.1 = EventType.connection_attempt ∧
    1000 + 120 ≤ (event_triggered_node 1000 (some 940)
        ⟨3, 20, 1, 3, 10, 8, 30, 7, 8, 30⟩ [] .noJson .null).event_instance.2 ∧
    (event_triggered_node 1000 (some 940) ⟨3, 20, 1, 3, 10, 8, 30, 7, 8, 30⟩ []
        .noJson .null).event_instance.2 ≤ 1000 + 300 :=
  event_triggered_zero_human_connection 1000 (some 940)
    ⟨3, 20, 1, 3, 10, 8, 30, 7, 8, 30⟩ [] .noJson .null rfl
    (by rw [Jitter.valid]; norm_num) (by norm_num)

/-! ## C9 — recovery from unusable scheduler decisions -/

/-- C9 (counterexample): a decision whose `event_type` lies outside
{appointment_reminder, pending_activation, customer_followup} is NOT replaced
by `{pending_activation, now}`: the node's `EventType(...)` validation accepts
all five enum values, so `{"event_type": "opening_greeting", "event_time":
<t>}` at `now = 0` yields the instance `(opening_greeting, t)`, refuting the
claimed substitution. -/
theorem event_decision_recovery_counterexample :
    (event_untriggered_node 0
        (.json ⟨some "opening_greeting", some (.valid 3600), none⟩)).event_instance
      = (EventType.opening_greeting, 3600) ∧
    (event_untriggered_node 0
        (.json ⟨some "opening_greeting", some (.valid 3600), none⟩)).event_instance
      ≠ (EventType.pending_activation, 0) := by
  exact ⟨by decide, by decide⟩

/-- C9 (amended): when no JSON can be extracted from the model response the
decision is substituted wholesale by `{pending_activation, now}`; otherwise
recovery is per-field — an `event_type` that is not one of the five `EventType`
enum values falls back to `pending_activation`, and a missing or unparsable
`event_time` falls back to `now` — while valid fields (including
`opening_greeting` and `connection_attempt`) are kept; the node is total, so
no exception reaches the caller. -/
theorem event_decision_recovery (now : ℤ) (input : DecisionResponse) :
    (input = .noJson →
      (event_untriggered_node now input).event_instance
        = (EventType.pending_activation, now)) ∧
    (∀ d, input = .json d →
      eventTypeOfString (d.event_type.getD "pending_activation") = none →
      (event_untriggered_node now input).event_instance.1
        = EventType.pending_activation) ∧
    (∀ d, input = .json d →
      (d.event_time = none ∨ d.event_time = some .invalid) →
      (event_untriggered_node now input).event_instance.2 = now) := by
  refine ⟨?_, ?_, ?_⟩
  · rintro rfl
    simp [event_untriggered_node, parse_event_decision, decisionToInstance,
      eventTypeOfString]
  · rintro d rfl hnone
    simp [event_untriggered_node, parse_event_decision, decisionToInstance, hnone]
  · rintro d rfl htime
    rcases htime with h | h <;>
      simp [event_untriggered_node, parse_event_decision, decisionToInstance, h]

theorem event_decision_recovery_witness :
    (event_untriggered_node 5 .noJson).event_instance
      = (EventType.pending_activation, 5) ∧
    (event_untriggered_node 5
        (.json ⟨some "bogus", some (.valid 99), none⟩)).event_instance.1
      = EventType.pending_activation ∧
    (event_untriggered_node 7
        (.json ⟨some "customer_followup", some .invalid, none⟩)).event_instance.2
      = 7 :=
  ⟨(event_decision_recovery 5 .noJson).1 rfl,
   (event_decision_recovery 5 (.json ⟨some "bogus", some (.valid 99), none⟩)).2.1
     _ rfl (by decide),
   (event_decision_recovery 7
       (.json ⟨some "customer_followup", some .invalid, none⟩)).2.2
     _ rfl (Or.inr rfl)⟩

/-! ## C10 — scheduler bookkeeping frame -/

/-- C10 (counterexample): the triggered node does not set
`last_active_send_time` to the call's `now` — it floors it to the whole minute
(`replace(second=0, microsecond=0)`): at `now = 90` seconds (00:01:30) the
returned value denotes second 60, not 90, even though `user_last_reply_time`
does come back unchanged. -/
theorem scheduler_bookkeeping_counterexample :
    (event_triggered_node 90 none ⟨2, 15, 1, 3, 0, 7, 0, 5, 7, 0⟩ ["human"]
        .noJson (.val 5)).user_last_reply_time = .val 5 ∧
    (event_triggered_node 90 none ⟨2, 15, 1, 3, 0, 7, 0, 5, 7, 0⟩ ["human"]
        .noJson (.val 5)).last_active_send_time = .val 60 ∧
    TimeStrField.val 60 ≠ TimeStrField.val (90 : ℤ) := by
  exact ⟨by decide, by decide, by decide⟩

/-- C10 (amended): a triggered-mode call returns `user_last_reply_time`
byte-identical to its input value (an absent key comes back as the default
`""`), and sets `last_active_send_time` to the call's `now` truncated to the
whole minute; an untriggered-mode call sets both `user_last_reply_time` and
`last_active_send_time` to `now` truncated to the whole minute.  Both nodes
return a fresh update record consisting only of `event_instance`,
`appointment_time` and these two timestamps: no other field of the scheduling
context is written, and the input is never mutated. -/
theorem scheduler_bookkeeping (now : ℤ) (la : Option ℤ) (j : Jitter)
    (history : List String) (llm llm2 : DecisionResponse)
    (ctx_user : TimeStrField) (h : ctx_user ≠ .missing) :
    (event_triggered_node now la j history llm ctx_user).user_last_reply_time
      = ctx_user ∧
    (event_triggered_node now la j history llm ctx_user).last_active_send_time
      = .val (minuteFloor now) ∧
    (event_untriggered_node now llm2).user_last_reply_time
      = .val (minuteFloor now) ∧
    (event_untriggered_node now llm2).last_active_send_time
      = .val (minuteFloor now) := by
  refine ⟨?_, rfl, rfl, rfl⟩
  cases ctx_user with
  | missing => exact absurd rfl h
  | null => rfl
  | emptyStr => rfl
  | val t => rfl

theorem scheduler_bookkeeping_witness :
    (event_triggered_node 125 none ⟨2, 15, 1, 3, 0, 7, 0, 5, 7, 0⟩ ["human"]
        .noJson (.val 17)).user_last_reply_time = .val 17 ∧
    (event_triggered_node 125 none ⟨2, 15, 1, 3, 0, 7, 0, 5, 7, 0⟩ ["human"]
        .noJson (.val 17)).last_active_send_time = .val 120 ∧
    (event_untriggered_node 125 .noJson).user_last_reply_time = .val 120 ∧
    (event_untriggered_node 125 .noJson).last_active_send_time = .val 120 := by
  obtain ⟨h1, h2, h3, h4⟩ := scheduler_bookkeeping 125 none
    ⟨2, 15, 1, 3, 0, 7, 0, 5, 7, 0⟩ ["human"] .noJson .noJson (.val 17)
    (by decide)
  refine ⟨h1, ?_, ?_, ?_⟩
  · rw [h2]; decide
  · rw [h3]; decide
  · rw [h4]; decide

end Yingxiao

